import Mathlib

/-!
Shallow embedding of the double-slit simulation library
(`Talleres/Segundo Corte/ExperimentoDobleSlit/doble_rendija.py`).

Physical parameters are modelled as rationals (every Python float literal the
library manipulates is a rational number); the transcendental intensity
computations (`np.arctan`, `np.sin`, `np.cos`, `np.pi`) are modelled over the
real numbers.  Python `raise ValueError` is modelled by `Except String`;
`warnings.warn` is modelled by returning the list of warnings emitted during
construction, in emission order.  Plotting, console printing and file output
are effectful external collaborators and are not part of the embedding.
-/

namespace DobleRendija

/-- Python `int()` applied to a rational: truncation toward zero. -/
def pyInt (q : ℚ) : ℤ := if 0 ≤ q then ⌊q⌋ else ⌈q⌉

/-- `np.arange(a, b)` on integers: the integers from `a` (inclusive) to `b`
(exclusive) in ascending order. -/
def npArange (a b : ℤ) : List ℤ := (List.range (b - a).toNat).map (fun i : ℕ => a + i)

/-- `np.linspace(a, b, n)`: `n` evenly spaced rationals from `a` to `b`
inclusive, step `(b - a)/(n - 1)`. -/
def npLinspace (a b : ℚ) (n : ℕ) : List ℚ :=
  (List.range n).map (fun i : ℕ => a + (i : ℚ) * ((b - a) / ((n : ℚ) - 1)))

/-- `np.max` of a list of reals (`0` on the empty list, which the library
never produces at a call site). -/
def npMax (l : List ℝ) : ℝ :=
  match l with
  | [] => 0
  | x :: xs => xs.foldl max x

/-- `np.max` of a list of rationals. -/
def npMaxQ (l : List ℚ) : ℚ :=
  match l with
  | [] => 0
  | x :: xs => xs.foldl max x

/-- `np.min` of a list of rationals. -/
def npMinQ (l : List ℚ) : ℚ :=
  match l with
  | [] => 0
  | x :: xs => xs.foldl min x

/-- The two non-fatal diagnostics the library can emit through
`warnings.warn`, identified by site. -/
inductive Advertencia where
  /-- `Onda.__init__`: wavelength outside the 100 nm – 1000 nm range. -/
  | fuera_de_rango_visible : Advertencia
  /-- `ExperimentoDobleRendija.__init__`: `separacion <= ancho_rendija`. -/
  | solapamiento : Advertencia
deriving DecidableEq

/-- `Onda`: a monochromatic wave (stored constructor arguments; the derived
attributes `k` and `frecuencia` are determined by `longitud_onda` and unused
by the simulation core). -/
structure Onda where
  longitud_onda : ℚ
  amplitud : ℚ
deriving DecidableEq

/-- `Onda.__init__(longitud_onda, amplitud)`: fails when the wavelength is
not positive; warns (non-fatally) when it is outside `[100e-9, 1000e-9]`;
stores both arguments unchanged. -/
def mkOnda (longitud_onda : ℚ) (amplitud : ℚ) : Except String (Onda × List Advertencia) :=
  if longitud_onda ≤ 0 then
    Except.error "La longitud de onda debe ser positiva"
  else if 100 / 10 ^ 9 ≤ longitud_onda ∧ longitud_onda ≤ 1000 / 10 ^ 9 then
    Except.ok (⟨longitud_onda, amplitud⟩, [])
  else
    Except.ok (⟨longitud_onda, amplitud⟩, [Advertencia.fuera_de_rango_visible])

/-- `Onda(longitud_onda)` with the default amplitude `1.0`. -/
def mkOnda_default (longitud_onda : ℚ) : Except String (Onda × List Advertencia) :=
  mkOnda longitud_onda 1

/-- `ExperimentoDobleRendija`: stored constructor arguments (the wave is
built internally from the wavelength). -/
structure ExperimentoDobleRendija where
  onda : Onda
  ancho_rendija : ℚ
  separacion : ℚ
  distancia_pantalla : ℚ
deriving DecidableEq

/-- `ExperimentoDobleRendija.__init__`: validates that the four physical
parameters are positive (each violation raises `ValueError`), warns when
`separacion ≤ ancho_rendija`, then builds the internal `Onda` (which may add
its own range warning). -/
def mkExperimentoDobleRendija (longitud_onda ancho_rendija separacion distancia_pantalla : ℚ) :
    Except String (ExperimentoDobleRendija × List Advertencia) :=
  if longitud_onda ≤ 0 then
    Except.error "La longitud de onda debe ser positiva"
  else if ancho_rendija ≤ 0 then
    Except.error "El ancho de rendija debe ser positivo"
  else if separacion ≤ 0 then
    Except.error "La separacion debe ser positiva"
  else if distancia_pantalla ≤ 0 then
    Except.error "La distancia a la pantalla debe ser positiva"
  else
    let ws₁ : List Advertencia :=
      if separacion ≤ ancho_rendija then [Advertencia.solapamiento] else []
    match mkOnda_default longitud_onda with
    | Except.error e => Except.error e
    | Except.ok (o, ws₂) =>
        Except.ok (⟨o, ancho_rendija, separacion, distancia_pantalla⟩, ws₁ ++ ws₂)

/-- `ExperimentoDobleRendija()` with all default parameters
(632e-9, 50e-6, 200e-6, 1.0). -/
def mkExperimentoDobleRendija_default : Except String (ExperimentoDobleRendija × List Advertencia) :=
  mkExperimentoDobleRendija (632 / 10 ^ 9) (50 / 10 ^ 6) (200 / 10 ^ 6) 1

/-- `self.separacion_angular = longitud_onda / separacion`
(computed once in `_calcular_parametros_teoricos`). -/
def separacion_angular (e : ExperimentoDobleRendija) : ℚ :=
  e.onda.longitud_onda / e.separacion

/-- `self.separacion_franjas = longitud_onda * distancia_pantalla / separacion`. -/
def separacion_franjas (e : ExperimentoDobleRendija) : ℚ :=
  e.onda.longitud_onda * e.distancia_pantalla / e.separacion

/-- `self.ancho_central_difraccion = 2 * longitud_onda * distancia_pantalla / ancho_rendija`. -/
def ancho_central_difraccion (e : ExperimentoDobleRendija) : ℚ :=
  2 * e.onda.longitud_onda * e.distancia_pantalla / e.ancho_rendija

/-- `self.num_franjas_visibles = int(ancho_central_difraccion / separacion_franjas)`. -/
def num_franjas_visibles (e : ExperimentoDobleRendija) : ℤ :=
  pyInt (ancho_central_difraccion e / separacion_franjas e)

/-- `theta = np.arctan(y / self.distancia_pantalla)`. -/
noncomputable def theta (e : ExperimentoDobleRendija) (y : ℝ) : ℝ :=
  Real.arctan (y / (e.distancia_pantalla : ℝ))

/-- `beta = (np.pi * self.ancho_rendija * np.sin(theta)) / self.onda.longitud_onda`. -/
noncomputable def beta (e : ExperimentoDobleRendija) (y : ℝ) : ℝ :=
  Real.pi * (e.ancho_rendija : ℝ) * Real.sin (theta e y) / (e.onda.longitud_onda : ℝ)

/-- `beta_seguro = np.where(np.abs(beta) < 1e-12, 1e-12, beta)` — the
divide-by-zero guard of both intensity computations. -/
noncomputable def beta_seguro (e : ExperimentoDobleRendija) (y : ℝ) : ℝ :=
  if |beta e y| < 1 / 10 ^ 12 then 1 / 10 ^ 12 else beta e y

/-- `rendija_simple` at one screen position:
`(np.sin(beta_seguro) / beta_seguro) ** 2`. -/
noncomputable def rendija_simple_punto (e : ExperimentoDobleRendija) (y : ℝ) : ℝ :=
  (Real.sin (beta_seguro e y) / beta_seguro e y) ^ 2

/-- `ExperimentoDobleRendija.rendija_simple(y)`: the single-slit diffraction
envelope, evaluated elementwise on the position array. -/
noncomputable def rendija_simple (e : ExperimentoDobleRendija) (y : List ℝ) : List ℝ :=
  y.map (rendija_simple_punto e)

/-- `delta = (np.pi * self.separacion * np.sin(theta)) / self.onda.longitud_onda`. -/
noncomputable def delta (e : ExperimentoDobleRendija) (y : ℝ) : ℝ :=
  Real.pi * (e.separacion : ℝ) * Real.sin (theta e y) / (e.onda.longitud_onda : ℝ)

/-- `doble_rendija` at one screen position: the diffraction envelope (same
expression as `rendija_simple`, recomputed) times the interference term
`np.cos(delta) ** 2`. -/
noncomputable def doble_rendija_punto (e : ExperimentoDobleRendija) (y : ℝ) : ℝ :=
  (Real.sin (beta_seguro e y) / beta_seguro e y) ^ 2 * (Real.cos (delta e y)) ^ 2

/-- `ExperimentoDobleRendija.doble_rendija(y)`: the double-slit intensity,
evaluated elementwise on the position array. -/
noncomputable def doble_rendija (e : ExperimentoDobleRendija) (y : List ℝ) : List ℝ :=
  y.map (doble_rendija_punto e)

/-- The local variable `intensidad` of `simular`: the raw (unnormalized)
intensity over the sampling grid, dispatched on the `doble` flag. -/
noncomputable def intensidad_cruda (e : ExperimentoDobleRendija) (ancho : ℚ) (puntos : ℤ)
    (doble : Bool) : List ℝ :=
  let y := npLinspace (-ancho / 2) (ancho / 2) puntos.toNat
  if doble then doble_rendija e (y.map (fun q : ℚ => (q : ℝ)))
  else rendija_simple e (y.map (fun q : ℚ => (q : ℝ)))

/-- `ExperimentoDobleRendija.simular(ancho, puntos, doble)`: validates
`ancho > 0` and `puntos >= 100`, samples `puntos` positions uniformly on
`[-ancho/2, ancho/2]`, computes the selected intensity and divides it by its
own `np.max`. -/
noncomputable def simular (e : ExperimentoDobleRendija) (ancho : ℚ) (puntos : ℤ)
    (doble : Bool) : Except String (List ℚ × List ℝ) :=
  if ancho ≤ 0 then
    Except.error "El ancho de la pantalla debe ser positivo"
  else if puntos < 100 then
    Except.error "Se requieren al menos 100 puntos para una buena resolucion"
  else
    let y := npLinspace (-ancho / 2) (ancho / 2) puntos.toNat
    let intensidad := intensidad_cruda e ancho puntos doble
    Except.ok (y, intensidad.map (fun v => v / npMax intensidad))

/-- `simular()` with the default arguments (`ancho=0.01`, `puntos=2000`,
`doble=True`). -/
noncomputable def simular_default (e : ExperimentoDobleRendija) :
    Except String (List ℚ × List ℝ) :=
  simular e (1 / 100) 2000 true

/-- `ResultadosAnalisis`: the dataclass returned by
`calcular_posiciones_franjas` (the `parametros` dict is modelled as an
association list of its seven numeric entries). -/
structure ResultadosAnalisis where
  posiciones_maximos : List ℚ
  posiciones_minimos : List ℚ
  separacion_franjas : ℚ
  ancho_central : ℚ
  parametros : List (String × ℚ)
deriving DecidableEq

/-- `ExperimentoDobleRendija.calcular_posiciones_franjas(n_max)`: maxima at
`np.arange(-n_max, n_max + 1) * separacion_franjas`, minima at
`(np.arange(-n_max, n_max) + 0.5) * separacion_franjas`.  The function body
performs no validation of `n_max`. -/
def calcular_posiciones_franjas (e : ExperimentoDobleRendija) (n_max : ℤ) : ResultadosAnalisis :=
  let ordenes := npArange (-n_max) (n_max + 1)
  let ordenes_minimos := (npArange (-n_max) n_max).map (fun n : ℤ => (n : ℚ) + 1 / 2)
  { posiciones_maximos := ordenes.map (fun n : ℤ => (n : ℚ) * separacion_franjas e)
    posiciones_minimos := ordenes_minimos.map (fun q : ℚ => q * separacion_franjas e)
    separacion_franjas := separacion_franjas e
    ancho_central := ancho_central_difraccion e
    parametros :=
      [("longitud_onda_nm", e.onda.longitud_onda * 10 ^ 9),
       ("ancho_rendija_um", e.ancho_rendija * 10 ^ 6),
       ("separacion_um", e.separacion * 10 ^ 6),
       ("distancia_pantalla_m", e.distancia_pantalla),
       ("separacion_franjas_mm", separacion_franjas e * 10 ^ 3),
       ("ancho_central_mm", ancho_central_difraccion e * 10 ^ 3),
       ("num_franjas_visibles", (num_franjas_visibles e : ℚ))] }

/-- `calcular_posiciones_franjas()` with the default `n_max = 10`. -/
def calcular_posiciones_franjas_default (e : ExperimentoDobleRendija) : ResultadosAnalisis :=
  calcular_posiciones_franjas e 10

/-- The theory-evaluation step of `comparar_experimento_teoria`: it calls
`experimento.simular(ancho=np.max(y) - np.min(y), puntos=len(y), doble=True)`
to obtain `(y_teoria, intensidad_teoria)`.  The subsequent MSE/correlation
statistics, plotting and printing consume this pair and are external
reporting concerns; the supplied experimental intensity plays no role in
where the theory is sampled. -/
noncomputable def comparar_experimento_teoria (y_experimental : List ℚ)
    (experimento : ExperimentoDobleRendija) : Except String (List ℚ × List ℝ) :=
  simular experimento (npMaxQ y_experimental - npMinQ y_experimental)
    (y_experimental.length : ℤ) true

/-- The experiment built by `ExperimentoDobleRendija()` with all defaults:
wavelength 632 nm, slit width 50 μm, separation 200 μm, screen at 1 m. -/
def experimento_defecto : ExperimentoDobleRendija :=
  ⟨⟨632 / 10 ^ 9, 1⟩, 50 / 10 ^ 6, 200 / 10 ^ 6, 1⟩

/-- The experiment of the end-to-end example: wavelength 632 nm, slit width
100 μm, separation 400 μm, screen at 1.5 m. -/
def experimento_enunciado : ExperimentoDobleRendija :=
  ⟨⟨632 / 10 ^ 9, 1⟩, 100 / 10 ^ 6, 400 / 10 ^ 6, 3 / 2⟩

/-! ### Generic lemmas about `foldl max` / `foldl min` (the `np.max` / `np.min` model) -/

theorem le_foldl_max {α : Type} [LinearOrder α] (xs : List α) (x : α) :
    x ≤ xs.foldl max x := by
  induction xs generalizing x with
  | nil => exact le_refl x
  | cons y ys ih => exact le_trans (le_max_left x y) (ih (max x y))

theorem le_foldl_max_of_mem {α : Type} [LinearOrder α] {a : α} {xs : List α} (x : α)
    (h : a ∈ xs) : a ≤ xs.foldl max x := by
  induction xs generalizing x with
  | nil => cases h
  | cons y ys ih =>
      rcases List.mem_cons.1 h with h | h
      · subst h
        exact le_trans (le_max_right x a) (le_foldl_max ys (max x a))
      · exact ih (max x y) h

theorem foldl_max_le {α : Type} [LinearOrder α] {xs : List α} {x M : α} (hx : x ≤ M)
    (h : ∀ a ∈ xs, a ≤ M) : xs.foldl max x ≤ M := by
  induction xs generalizing x with
  | nil => exact hx
  | cons y ys ih =>
      exact ih (max_le hx (h y (List.mem_cons_self y ys)))
        fun a ha => h a (List.mem_cons_of_mem y ha)

theorem foldl_min_le {α : Type} [LinearOrder α] (xs : List α) (x : α) :
    xs.foldl min x ≤ x := by
  induction xs generalizing x with
  | nil => exact le_refl x
  | cons y ys ih => exact le_trans (ih (min x y)) (min_le_left x y)

theorem foldl_min_le_of_mem {α : Type} [LinearOrder α] {a : α} {xs : List α} (x : α)
    (h : a ∈ xs) : xs.foldl min x ≤ a := by
  induction xs generalizing x with
  | nil => cases h
  | cons y ys ih =>
      rcases List.mem_cons.1 h with h | h
      · subst h
        exact le_trans (foldl_min_le ys (min x a)) (min_le_right x a)
      · exact ih (min x y) h

theorem le_foldl_min {α : Type} [LinearOrder α] {xs : List α} {x M : α} (hx : M ≤ x)
    (h : ∀ a ∈ xs, M ≤ a) : M ≤ xs.foldl min x := by
  induction xs generalizing x with
  | nil => exact hx
  | cons y ys ih =>
      exact ih (le_min hx (h y (List.mem_cons_self y ys)))
        fun a ha => h a (List.mem_cons_of_mem y ha)

theorem npMaxQ_eq_of_mem_of_le {l : List ℚ} {M : ℚ} (hmem : M ∈ l)
    (hub : ∀ a ∈ l, a ≤ M) : npMaxQ l = M := by
  cases l with
  | nil => cases hmem
  | cons x xs =>
      refine le_antisymm (foldl_max_le (hub x (List.mem_cons_self x xs))
        fun a ha => hub a (List.mem_cons_of_mem x ha)) ?_
      rcases List.mem_cons.1 hmem with h | h
      · subst h; exact le_foldl_max xs M
      · exact le_foldl_max_of_mem x h

theorem npMinQ_eq_of_mem_of_le {l : List ℚ} {M : ℚ} (hmem : M ∈ l)
    (hlb : ∀ a ∈ l, M ≤ a) : npMinQ l = M := by
  cases l with
  | nil => cases hmem
  | cons x xs =>
      refine le_antisymm ?_ (le_foldl_min (hlb x (List.mem_cons_self x xs))
        fun a ha => hlb a (List.mem_cons_of_mem x ha))
      rcases List.mem_cons.1 hmem with h | h
      · subst h; exact foldl_min_le xs M
      · exact foldl_min_le_of_mem x h

theorem le_npMax_of_mem {l : List ℝ} {a : ℝ} (h : a ∈ l) : a ≤ npMax l := by
  cases l with
  | nil => cases h
  | cons x xs =>
      rcases List.mem_cons.1 h with h | h
      · subst h; exact le_foldl_max xs a
      · exact le_foldl_max_of_mem x h

theorem foldl_max_map_div (xs : List ℝ) (x M : ℝ) (hM : 0 ≤ M) :
    (xs.map (fun v => v / M)).foldl max (x / M) = xs.foldl max x / M := by
  induction xs generalizing x with
  | nil => rfl
  | cons y ys ih =>
      simp only [List.map_cons, List.foldl_cons]
      rw [max_div_div_right hM, ih]

theorem npMax_map_div (l : List ℝ) (M : ℝ) (hM : 0 ≤ M) :
    npMax (l.map (fun v => v / M)) = npMax l / M := by
  cases l with
  | nil => simp [npMax]
  | cons x xs => exact foldl_max_map_div xs x M hM

/-! ### Sampling-grid and order-sequence lemmas -/

theorem npLinspace_length (a b : ℚ) (n : ℕ) : (npLinspace a b n).length = n := by
  rw [npLinspace, List.length_map, List.length_range]

theorem npLinspace_get (a b : ℚ) (n : ℕ) (i : ℕ) (h : i < (npLinspace a b n).length) :
    (npLinspace a b n).get ⟨i, h⟩ = a + (i : ℚ) * ((b - a) / ((n : ℚ) - 1)) := by
  simp only [npLinspace, List.get_eq_getElem, List.getElem_map, List.getElem_range]

theorem npLinspace_mem {a b : ℚ} {n : ℕ} {q : ℚ} :
    q ∈ npLinspace a b n ↔ ∃ i, i < n ∧ q = a + (i : ℚ) * ((b - a) / ((n : ℚ) - 1)) := by
  simp only [npLinspace, List.mem_map, List.mem_range]
  constructor
  · rintro ⟨i, hi, rfl⟩; exact ⟨i, hi, rfl⟩
  · rintro ⟨i, hi, rfl⟩; exact ⟨i, hi, rfl⟩

theorem npArange_length (a b : ℤ) : (npArange a b).length = (b - a).toNat := by
  rw [npArange, List.length_map, List.length_range]

theorem npArange_get (a b : ℤ) (i : ℕ) (h : i < (npArange a b).length) :
    (npArange a b).get ⟨i, h⟩ = a + i := by
  simp only [npArange, List.get_eq_getElem, List.getElem_map, List.getElem_range]

/-! ### Constructor characterizations -/

theorem mkOnda_ok_of_pos {lo : ℚ} (amp : ℚ) (h : 0 < lo) :
    mkOnda lo amp = Except.ok (⟨lo, amp⟩,
      if 100 / 10 ^ 9 ≤ lo ∧ lo ≤ 1000 / 10 ^ 9 then []
      else [Advertencia.fuera_de_rango_visible]) := by
  by_cases hr : 100 / 10 ^ 9 ≤ lo ∧ lo ≤ 1000 / 10 ^ 9
  · simp only [mkOnda, if_neg (not_le.2 h), if_pos hr]
  · simp only [mkOnda, if_neg (not_le.2 h), if_neg hr]

theorem mkOnda_error_of_nonpos {lo : ℚ} (amp : ℚ) (h : lo ≤ 0) :
    mkOnda lo amp = Except.error "La longitud de onda debe ser positiva" := by
  simp only [mkOnda, if_pos h]

theorem mkExperimentoDobleRendija_ok_of_pos {lo a d L : ℚ}
    (h1 : 0 < lo) (h2 : 0 < a) (h3 : 0 < d) (h4 : 0 < L) :
    mkExperimentoDobleRendija lo a d L = Except.ok (⟨⟨lo, 1⟩, a, d, L⟩,
      (if d ≤ a then [Advertencia.solapamiento] else []) ++
      (if 100 / 10 ^ 9 ≤ lo ∧ lo ≤ 1000 / 10 ^ 9 then []
       else [Advertencia.fuera_de_rango_visible])) := by
  simp only [mkExperimentoDobleRendija, if_neg (not_le.2 h1), if_neg (not_le.2 h2),
    if_neg (not_le.2 h3), if_neg (not_le.2 h4), mkOnda_default, mkOnda_ok_of_pos 1 h1]

theorem mkExperimentoDobleRendija_error_of_not_pos {lo a d L : ℚ}
    (h : ¬(0 < lo ∧ 0 < a ∧ 0 < d ∧ 0 < L)) :
    ∃ msg, mkExperimentoDobleRendija lo a d L = Except.error msg := by
  by_cases h1 : lo ≤ 0
  · exact ⟨"La longitud de onda debe ser positiva",
      by simp only [mkExperimentoDobleRendija, if_pos h1]⟩
  by_cases h2 : a ≤ 0
  · exact ⟨"El ancho de rendija debe ser positivo",
      by simp only [mkExperimentoDobleRendija, if_neg h1, if_pos h2]⟩
  by_cases h3 : d ≤ 0
  · exact ⟨"La separacion debe ser positiva",
      by simp only [mkExperimentoDobleRendija, if_neg h1, if_neg h2, if_pos h3]⟩
  by_cases h4 : L ≤ 0
  · exact ⟨"La distancia a la pantalla debe ser positiva",
      by simp only [mkExperimentoDobleRendija, if_neg h1, if_neg h2, if_neg h3, if_pos h4]⟩
  exact absurd ⟨not_le.1 h1, not_le.1 h2, not_le.1 h3, not_le.1 h4⟩ h

theorem mkExperimentoDobleRendija_ok_inv {lo a d L : ℚ}
    {e : ExperimentoDobleRendija} {ws : List Advertencia}
    (h : mkExperimentoDobleRendija lo a d L = Except.ok (e, ws)) :
    0 < lo ∧ 0 < a ∧ 0 < d ∧ 0 < L ∧ e = ⟨⟨lo, 1⟩, a, d, L⟩ := by
  by_cases hp : 0 < lo ∧ 0 < a ∧ 0 < d ∧ 0 < L
  · obtain ⟨h1, h2, h3, h4⟩ := hp
    rw [mkExperimentoDobleRendija_ok_of_pos h1 h2 h3 h4] at h
    have h' := Except.ok.inj h
    exact ⟨h1, h2, h3, h4, ((Prod.ext_iff.1 h').1).symm⟩
  · obtain ⟨msg, hmsg⟩ := mkExperimentoDobleRendija_error_of_not_pos hp
    rw [hmsg] at h
    cases h

/-! ### The singularity guard and intensity bounds -/

theorem abs_beta_seguro_ge (e : ExperimentoDobleRendija) (y : ℝ) :
    1 / 10 ^ 12 ≤ |beta_seguro e y| := by
  rw [beta_seguro]
  split_ifs with h
  · rw [abs_of_pos (by norm_num : (0 : ℝ) < 1 / 10 ^ 12)]
  · exact not_lt.1 h

theorem beta_seguro_ne_zero (e : ExperimentoDobleRendija) (y : ℝ) :
    beta_seguro e y ≠ 0 := by
  intro h0
  have h := abs_beta_seguro_ge e y
  rw [h0, abs_zero] at h
  norm_num at h

theorem sin_div_sq_lt_one {x : ℝ} (hx : x ≠ 0) : (Real.sin x / x) ^ 2 < 1 := by
  rw [div_pow]
  have hx2 : 0 < x ^ 2 := lt_of_le_of_ne (sq_nonneg x) (Ne.symm (pow_ne_zero 2 hx))
  exact (div_lt_one hx2).mpr (Real.sin_sq_lt_sq hx)

theorem rendija_simple_punto_nonneg (e : ExperimentoDobleRendija) (y : ℝ) :
    0 ≤ rendija_simple_punto e y := sq_nonneg _

theorem rendija_simple_punto_lt_one (e : ExperimentoDobleRendija) (y : ℝ) :
    rendija_simple_punto e y < 1 :=
  sin_div_sq_lt_one (beta_seguro_ne_zero e y)

theorem doble_rendija_punto_nonneg (e : ExperimentoDobleRendija) (y : ℝ) :
    0 ≤ doble_rendija_punto e y :=
  mul_nonneg (sq_nonneg _) (sq_nonneg _)

theorem doble_rendija_punto_le_simple (e : ExperimentoDobleRendija) (y : ℝ) :
    doble_rendija_punto e y ≤ rendija_simple_punto e y :=
  mul_le_of_le_one_right (rendija_simple_punto_nonneg e y) (Real.cos_sq_le_one (delta e y))

theorem doble_rendija_punto_lt_one (e : ExperimentoDobleRendija) (y : ℝ) :
    doble_rendija_punto e y < 1 :=
  lt_of_le_of_lt (doble_rendija_punto_le_simple e y) (rendija_simple_punto_lt_one e y)

theorem intensidades_en_rango (e : ExperimentoDobleRendija) (y : List ℝ) :
    (∀ v ∈ rendija_simple e y, 0 ≤ v ∧ v ≤ 1) ∧
    (∀ v ∈ doble_rendija e y, 0 ≤ v ∧ v ≤ 1) := by
  constructor
  · intro v hv
    obtain ⟨x, -, rfl⟩ := List.mem_map.1 hv
    exact ⟨rendija_simple_punto_nonneg e x, le_of_lt (rendija_simple_punto_lt_one e x)⟩
  · intro v hv
    obtain ⟨x, -, rfl⟩ := List.mem_map.1 hv
    exact ⟨doble_rendija_punto_nonneg e x, le_of_lt (doble_rendija_punto_lt_one e x)⟩

theorem beta_zero (e : ExperimentoDobleRendija) : beta e 0 = 0 := by
  rw [beta, theta, zero_div, Real.arctan_zero, Real.sin_zero, mul_zero, zero_div]

theorem delta_zero (e : ExperimentoDobleRendija) : delta e 0 = 0 := by
  rw [delta, theta, zero_div, Real.arctan_zero, Real.sin_zero, mul_zero, zero_div]

theorem mk_experimento_defecto_ok :
    mkExperimentoDobleRendija (632 / 10 ^ 9) (50 / 10 ^ 6) (200 / 10 ^ 6) 1 =
      Except.ok (experimento_defecto, []) := by
  rw [mkExperimentoDobleRendija_ok_of_pos (by norm_num) (by norm_num) (by norm_num)
    (by norm_num), if_neg (by norm_num), if_pos (by norm_num : (100 : ℚ) / 10 ^ 9 ≤
    632 / 10 ^ 9 ∧ (632 : ℚ) / 10 ^ 9 ≤ 1000 / 10 ^ 9)]
  rfl

/-- `simular` on valid arguments: the guards pass and the result is the
sampling grid paired with the raw intensity divided by its own maximum. -/
theorem simular_ok (e : ExperimentoDobleRendija) (w : ℚ) (n : ℤ) (m : Bool)
    (hw : 0 < w) (hn : 100 ≤ n) :
    simular e w n m = Except.ok (npLinspace (-w / 2) (w / 2) n.toNat,
      (intensidad_cruda e w n m).map (fun v => v / npMax (intensidad_cruda e w n m))) := by
  rw [simular, if_neg (not_le.2 hw), if_neg (not_lt.2 hn)]

/-! ### The claims -/

/-- At the off-axis position `y = 0.001` of the default experiment the
unguarded `beta` is at least `1e-12` in absolute value (it is about `0.248`),
so the singularity guard does not fire there. -/
theorem beta_defecto_milesima_lb :
    1 / 10 ^ 12 ≤ |beta experimento_defecto (1 / 1000)| := by
  have hsqpos : 0 < Real.sqrt (1 + (1 / 1000 : ℝ) ^ 2) := Real.sqrt_pos.2 (by positivity)
  have hsq : Real.sqrt (1 + (1 / 1000 : ℝ) ^ 2) ≤ 2 := by
    rw [show (2 : ℝ) = Real.sqrt (2 ^ 2) from (Real.sqrt_sq (by norm_num)).symm]
    exact Real.sqrt_le_sqrt (by norm_num)
  have hθ : theta experimento_defecto (1 / 1000) = Real.arctan (1 / 1000) := by
    rw [theta]
    norm_num [experimento_defecto]
  have hs : (1 / 2000 : ℝ) ≤ Real.sin (theta experimento_defecto (1 / 1000)) := by
    rw [hθ, Real.sin_arctan]
    calc (1 / 2000 : ℝ) = (1 / 1000) / 2 := by norm_num
      _ ≤ (1 / 1000) / Real.sqrt (1 + (1 / 1000 : ℝ) ^ 2) :=
        div_le_div_of_nonneg_left (by norm_num) hsqpos hsq
  have hβ : beta experimento_defecto (1 / 1000) =
      Real.pi * (50 / 10 ^ 6) * Real.sin (theta experimento_defecto (1 / 1000)) /
        (632 / 10 ^ 9) := by
    have hA : ((experimento_defecto.ancho_rendija : ℚ) : ℝ) = 50 / 10 ^ 6 := by
      norm_num [experimento_defecto]
    have hΛ : ((experimento_defecto.onda.longitud_onda : ℚ) : ℝ) = 632 / 10 ^ 9 := by
      norm_num [experimento_defecto]
    rw [beta, hA, hΛ]
  rw [hβ]
  have hpos : 0 < Real.pi * (50 / 10 ^ 6) *
      Real.sin (theta experimento_defecto (1 / 1000)) / (632 / 10 ^ 9) := by
    apply div_pos _ (by norm_num)
    apply mul_pos (mul_pos Real.pi_pos (by norm_num))
    linarith
  rw [abs_of_pos hpos, le_div_iff₀ (by norm_num : (0 : ℝ) < 632 / 10 ^ 9)]
  calc (1 / 10 ^ 12 : ℝ) * (632 / 10 ^ 9) ≤ 3 * (50 / 10 ^ 6) * (1 / 2000) := by norm_num
    _ ≤ Real.pi * (50 / 10 ^ 6) * Real.sin (theta experimento_defecto (1 / 1000)) :=
      mul_le_mul (mul_le_mul_of_nonneg_right Real.pi_gt_three.le (by norm_num)) hs
        (by norm_num) (by positivity)

/-- C1 (counterexample): with the default experiment (632e-9, 50e-6, 200e-6,
1.0) — a successful construction — at the off-axis position array `[0.001]`
the singularity guard does not fire (`|beta| ≥ 1e-12`, so the returned value
is the genuine `(sin β / β)²` with `β ≈ 0.248`), and the output of
`rendija_simple` (likewise `doble_rendija`) has maximum different from `1`
(about `0.98`): these two functions return the raw intensity, and the
division by the maximum happens in `simular`, not here. -/
theorem claim_C1_counterexample :
    mkExperimentoDobleRendija (632 / 10 ^ 9) (50 / 10 ^ 6) (200 / 10 ^ 6) 1 =
      Except.ok (experimento_defecto, []) ∧
    1 / 10 ^ 12 ≤ |beta experimento_defecto (1 / 1000)| ∧
    beta_seguro experimento_defecto (1 / 1000) = beta experimento_defecto (1 / 1000) ∧
    (rendija_simple experimento_defecto [1 / 1000]).length = 1 ∧
    npMax (rendija_simple experimento_defecto [1 / 1000]) ≠ 1 ∧
    npMax (doble_rendija experimento_defecto [1 / 1000]) ≠ 1 := by
  refine ⟨mk_experimento_defecto_ok, beta_defecto_milesima_lb, ?_, rfl, ?_, ?_⟩
  · rw [beta_seguro, if_neg (not_lt.2 beta_defecto_milesima_lb)]
  · exact ne_of_lt (rendija_simple_punto_lt_one experimento_defecto (1 / 1000))
  · exact ne_of_lt (doble_rendija_punto_lt_one experimento_defecto (1 / 1000))

/-- C1 (amended): for every experiment and every position array,
`rendija_simple` and `doble_rendija` return a sequence of the same length as
the input whose raw values lie in `[0, 1]`; these functions do not divide by
their own maximum — the normalization that makes the top sample exactly
`1.0` is performed by `simular` — so their maximum sample need not be `1.0`. -/
theorem claim_C1_amended (e : ExperimentoDobleRendija) (y : List ℝ) :
    (rendija_simple e y).length = y.length ∧
    (doble_rendija e y).length = y.length ∧
    (∀ v ∈ rendija_simple e y, 0 ≤ v ∧ v ≤ 1) ∧
    (∀ v ∈ doble_rendija e y, 0 ≤ v ∧ v ≤ 1) :=
  ⟨List.length_map .., List.length_map .., (intensidades_en_rango e y).1,
    (intensidades_en_rango e y).2⟩

/-- C1 (witness): the amended statement evaluated on the default experiment
and the off-axis position array `[0.001]`. -/
theorem claim_C1_witness :
    (rendija_simple experimento_defecto [1 / 1000]).length = 1 ∧
    (doble_rendija experimento_defecto [1 / 1000]).length = 1 ∧
    (0 ≤ rendija_simple_punto experimento_defecto (1 / 1000) ∧
      rendija_simple_punto experimento_defecto (1 / 1000) ≤ 1) ∧
    (0 ≤ doble_rendija_punto experimento_defecto (1 / 1000) ∧
      doble_rendija_punto experimento_defecto (1 / 1000) ≤ 1) := by
  obtain ⟨hl, hl2, hs, hd⟩ := claim_C1_amended experimento_defecto [1 / 1000]
  exact ⟨hl, hl2, hs _ (List.mem_singleton.2 rfl), hd _ (List.mem_singleton.2 rfl)⟩

/-- C4: for every experiment and position, the guard substitutes `1e-12` for
`beta` exactly when `|beta| < 1e-12`, the guarded denominator is bounded away
from zero (so the division is by a nonzero number and no NaN or Infinity
arises), and every output value of the two intensity functions is a real
number in `[0, 1]`. -/
theorem claim_C4 (e : ExperimentoDobleRendija) (y : ℝ) (ys : List ℝ) :
    (|beta e y| < 1 / 10 ^ 12 → beta_seguro e y = 1 / 10 ^ 12) ∧
    (1 / 10 ^ 12 ≤ |beta e y| → beta_seguro e y = beta e y) ∧
    1 / 10 ^ 12 ≤ |beta_seguro e y| ∧
    beta_seguro e y ≠ 0 ∧
    (∀ v ∈ rendija_simple e ys, 0 ≤ v ∧ v ≤ 1) ∧
    (∀ v ∈ doble_rendija e ys, 0 ≤ v ∧ v ≤ 1) := by
  obtain ⟨hs, hd⟩ := intensidades_en_rango e ys
  exact ⟨fun h => by rw [beta_seguro, if_pos h], fun h => by
    rw [beta_seguro, if_neg (not_lt.2 h)], abs_beta_seguro_ge e y,
    beta_seguro_ne_zero e y, hs, hd⟩

/-- C4 (witness): at the default experiment and `y = 0` (the singular point
θ = 0), `beta = 0` so the guard fires and the guarded value is `1e-12`; the
intensity at the center is a well-defined value in `[0, 1]`. -/
theorem claim_C4_witness :
    beta_seguro experimento_defecto 0 = 1 / 10 ^ 12 ∧
    1 / 10 ^ 12 ≤ |beta_seguro experimento_defecto 0| ∧
    beta_seguro experimento_defecto 0 ≠ 0 ∧
    (0 ≤ rendija_simple_punto experimento_defecto 0 ∧
      rendija_simple_punto experimento_defecto 0 ≤ 1) := by
  obtain ⟨h1, -, h3, h4, h5, -⟩ := claim_C4 experimento_defecto 0 [(0 : ℝ)]
  refine ⟨h1 ?_, h3, h4, h5 _ (List.mem_singleton.2 rfl)⟩
  rw [beta_zero, abs_zero]
  norm_num

/-- C7: at every screen position the unnormalized double-slit intensity is
the unnormalized single-slit envelope multiplied by `cos²(δ) ∈ [0,1]`, and
therefore never exceeds that envelope at the same position. -/
theorem claim_C7 (e : ExperimentoDobleRendija) (y : ℝ) :
    doble_rendija_punto e y = rendija_simple_punto e y * (Real.cos (delta e y)) ^ 2 ∧
    0 ≤ (Real.cos (delta e y)) ^ 2 ∧ (Real.cos (delta e y)) ^ 2 ≤ 1 ∧
    doble_rendija_punto e y ≤ rendija_simple_punto e y :=
  ⟨rfl, sq_nonneg _, Real.cos_sq_le_one (delta e y), doble_rendija_punto_le_simple e y⟩

/-- C2: every successfully constructed experiment freezes
`separacion_angular = λ/d`, `separacion_franjas = λL/d`,
`ancho_central_difraccion = 2λL/a` and
`num_franjas_visibles = ⌊ancho_central / separacion_franjas⌋` (the Python
`int()` truncation agrees with the floor because the ratio is positive). -/
theorem claim_C2 (lo a d L : ℚ) (e : ExperimentoDobleRendija) (ws : List Advertencia)
    (h : mkExperimentoDobleRendija lo a d L = Except.ok (e, ws)) :
    separacion_angular e = lo / d ∧
    separacion_franjas e = lo * L / d ∧
    ancho_central_difraccion e = 2 * lo * L / a ∧
    num_franjas_visibles e = ⌊ancho_central_difraccion e / separacion_franjas e⌋ := by
  obtain ⟨h1, h2, h3, h4, rfl⟩ := mkExperimentoDobleRendija_ok_inv h
  refine ⟨rfl, rfl, rfl, ?_⟩
  rw [num_franjas_visibles, pyInt, if_pos]
  refine le_of_lt (div_pos ?_ ?_)
  · exact div_pos (mul_pos (mul_pos two_pos h1) h4) h2
  · exact div_pos (mul_pos h1 h4) h3

/-- C2 (witness): the end-to-end example (632e-9, 100e-6, 400e-6, 1.5):
linear fringe spacing 2.37e-3 m, central-maximum width 1.896e-2 m, and
exactly 8 visible fringes. -/
theorem claim_C2_witness :
    mkExperimentoDobleRendija (632 / 10 ^ 9) (100 / 10 ^ 6) (400 / 10 ^ 6) (3 / 2) =
      Except.ok (experimento_enunciado, []) ∧
    separacion_angular experimento_enunciado = 79 / 50000 ∧
    separacion_franjas experimento_enunciado = 237 / 100000 ∧
    ancho_central_difraccion experimento_enunciado = 237 / 12500 ∧
    num_franjas_visibles experimento_enunciado = 8 := by
  have hmk : mkExperimentoDobleRendija (632 / 10 ^ 9) (100 / 10 ^ 6) (400 / 10 ^ 6) (3 / 2) =
      Except.ok (experimento_enunciado, []) := by
    rw [mkExperimentoDobleRendija_ok_of_pos (by norm_num) (by norm_num) (by norm_num)
      (by norm_num), if_neg (by norm_num), if_pos (by norm_num : (100 : ℚ) / 10 ^ 9 ≤
      632 / 10 ^ 9 ∧ (632 : ℚ) / 10 ^ 9 ≤ 1000 / 10 ^ 9)]
    rfl
  obtain ⟨e1, e2, e3, e4⟩ := claim_C2 _ _ _ _ _ _ hmk
  have hsep : separacion_franjas experimento_enunciado = 237 / 100000 := by
    rw [e2]; norm_num
  have hancho : ancho_central_difraccion experimento_enunciado = 237 / 12500 := by
    rw [e3]; norm_num
  refine ⟨hmk, by rw [e1]; norm_num, hsep, hancho, ?_⟩
  rw [e4, hsep, hancho]
  norm_num

/-- C5: construction fails exactly when one of the four physical parameters
is nonpositive; when it succeeds, the overlap warning is emitted exactly when
`separacion ≤ ancho_rendija` and the visible-range warning exactly when the
wavelength is outside `[100e-9, 1000e-9]`. -/
theorem claim_C5 (lo a d L : ℚ) :
    ((∃ r, mkExperimentoDobleRendija lo a d L = Except.ok r) ↔
      (0 < lo ∧ 0 < a ∧ 0 < d ∧ 0 < L)) ∧
    (¬(0 < lo ∧ 0 < a ∧ 0 < d ∧ 0 < L) →
      ∃ msg, mkExperimentoDobleRendija lo a d L = Except.error msg) ∧
    (∀ e ws, mkExperimentoDobleRendija lo a d L = Except.ok (e, ws) →
      (Advertencia.solapamiento ∈ ws ↔ d ≤ a)) ∧
    (∀ e ws, mkExperimentoDobleRendija lo a d L = Except.ok (e, ws) →
      (Advertencia.fuera_de_rango_visible ∈ ws ↔
        ¬(100 / 10 ^ 9 ≤ lo ∧ lo ≤ 1000 / 10 ^ 9))) := by
  refine ⟨⟨?_, ?_⟩, mkExperimentoDobleRendija_error_of_not_pos, ?_, ?_⟩
  · rintro ⟨⟨e, ws⟩, hr⟩
    obtain ⟨h1, h2, h3, h4, -⟩ := mkExperimentoDobleRendija_ok_inv hr
    exact ⟨h1, h2, h3, h4⟩
  · rintro ⟨h1, h2, h3, h4⟩
    exact ⟨_, mkExperimentoDobleRendija_ok_of_pos h1 h2 h3 h4⟩
  · intro e ws h
    obtain ⟨h1, h2, h3, h4, -⟩ := mkExperimentoDobleRendija_ok_inv h
    rw [mkExperimentoDobleRendija_ok_of_pos h1 h2 h3 h4] at h
    injection h with h'
    injection h' with hE hW
    subst hW
    by_cases hda : d ≤ a <;>
      by_cases hr : 100 / 10 ^ 9 ≤ lo ∧ lo ≤ 1000 / 10 ^ 9 <;>
      simp [hda, hr]
  · intro e ws h
    obtain ⟨h1, h2, h3, h4, -⟩ := mkExperimentoDobleRendija_ok_inv h
    rw [mkExperimentoDobleRendija_ok_of_pos h1 h2 h3 h4] at h
    injection h with h'
    injection h' with hE hW
    subst hW
    by_cases hda : d ≤ a <;>
      by_cases hr : 100 / 10 ^ 9 ≤ lo ∧ lo ≤ 1000 / 10 ^ 9 <;>
      simp [hda, hr]

/-- C5 (witness): `wavelength = 50e-9` (positive but outside the visible
range) constructs successfully and carries the plausibility warning and no
overlap warning; `wavelength = -1` fails with an error. -/
theorem claim_C5_witness :
    (∃ r, mkExperimentoDobleRendija (50 / 10 ^ 9) (50 / 10 ^ 6) (200 / 10 ^ 6) 1 =
      Except.ok r) ∧
    (∃ e ws, mkExperimentoDobleRendija (50 / 10 ^ 9) (50 / 10 ^ 6) (200 / 10 ^ 6) 1 =
      Except.ok (e, ws) ∧ Advertencia.fuera_de_rango_visible ∈ ws ∧
      Advertencia.solapamiento ∉ ws) ∧
    (∃ msg, mkExperimentoDobleRendija (-1) (50 / 10 ^ 6) (200 / 10 ^ 6) 1 =
      Except.error msg) := by
  obtain ⟨r, hr⟩ := (claim_C5 (50 / 10 ^ 9) (50 / 10 ^ 6) (200 / 10 ^ 6) 1).1.mpr
    (by norm_num)
  obtain ⟨e, ws⟩ := r
  have hw1 := (claim_C5 (50 / 10 ^ 9) (50 / 10 ^ 6) (200 / 10 ^ 6) 1).2.2.1 e ws hr
  have hw2 := (claim_C5 (50 / 10 ^ 9) (50 / 10 ^ 6) (200 / 10 ^ 6) 1).2.2.2 e ws hr
  refine ⟨⟨(e, ws), hr⟩, ⟨e, ws, hr, hw2.mpr (by norm_num), fun hmem =>
    absurd (hw1.mp hmem) (by norm_num)⟩,
    (claim_C5 (-1) (50 / 10 ^ 6) (200 / 10 ^ 6) 1).2.1 (by norm_num)⟩

/-- C6 (counterexample): `calcular_posiciones_franjas` called with
`n_max = 0 < 1` on the default experiment does not fail — it returns a
result (one maximum at the center and no minima).  The function performs no
validation of `n_max`. -/
theorem claim_C6_counterexample :
    (calcular_posiciones_franjas experimento_defecto 0).posiciones_maximos = [0] ∧
    (calcular_posiciones_franjas experimento_defecto 0).posiciones_minimos = [] := by
  constructor
  · have h0 : npArange (-(0 : ℤ)) (0 + 1) = [0] := by decide
    show (npArange (-(0 : ℤ)) (0 + 1)).map
      (fun n : ℤ => (n : ℚ) * separacion_franjas experimento_defecto) = [0]
    rw [h0]
    simp
  · rfl

/-- C6 (amended): `calcular_posiciones_franjas` uses `n_max = 10` when the
argument is unspecified, and performs no validation: for every integer
`n_max` (including values below 1) it returns normally, with
`max(0, 2·n_max+1)` maxima and `max(0, 2·n_max)` minima. -/
theorem claim_C6_amended (e : ExperimentoDobleRendija) (n : ℤ) :
    calcular_posiciones_franjas_default e = calcular_posiciones_franjas e 10 ∧
    (calcular_posiciones_franjas e n).posiciones_maximos.length = (2 * n + 1).toNat ∧
    (calcular_posiciones_franjas e n).posiciones_minimos.length = (2 * n).toNat := by
  refine ⟨rfl, ?_, ?_⟩
  · show ((npArange (-n) (n + 1)).map
      (fun m : ℤ => (m : ℚ) * separacion_franjas e)).length = (2 * n + 1).toNat
    rw [List.length_map, npArange_length]
    omega
  · show (((npArange (-n) n).map (fun m : ℤ => (m : ℚ) + 1 / 2)).map
      (fun q : ℚ => q * separacion_franjas e)).length = (2 * n).toNat
    rw [List.length_map, List.length_map, npArange_length]
    omega

/-- C10: for every positive wavelength and arbitrary amplitude (zero and
negative included), `Onda` construction succeeds and stores both values
unchanged — only the wavelength is validated. -/
theorem claim_C10 (lo amp : ℚ) (h : 0 < lo) :
    ∃ o ws, mkOnda lo amp = Except.ok (o, ws) ∧
      o.longitud_onda = lo ∧ o.amplitud = amp :=
  ⟨⟨lo, amp⟩, _, mkOnda_ok_of_pos amp h, rfl, rfl⟩

/-- C10 (witness): `Onda(632e-9, -5)` — a negative amplitude — constructs
successfully and stores the amplitude `-5` unchanged. -/
theorem claim_C10_witness :
    ∃ o ws, mkOnda (632 / 10 ^ 9) (-5) = Except.ok (o, ws) ∧
      o.longitud_onda = 632 / 10 ^ 9 ∧ o.amplitud = -5 :=
  claim_C10 (632 / 10 ^ 9) (-5) (by norm_num)

theorem posiciones_maximos_get (e : ExperimentoDobleRendija) (n : ℤ) (i : ℕ)
    (hi : i < (calcular_posiciones_franjas e n).posiciones_maximos.length) :
    (calcular_posiciones_franjas e n).posiciones_maximos.get ⟨i, hi⟩ =
      ((-n + i : ℤ) : ℚ) * separacion_franjas e := by
  simp only [calcular_posiciones_franjas, List.get_eq_getElem, List.getElem_map, npArange,
    List.getElem_range]

theorem posiciones_minimos_get (e : ExperimentoDobleRendija) (n : ℤ) (i : ℕ)
    (hi : i < (calcular_posiciones_franjas e n).posiciones_minimos.length) :
    (calcular_posiciones_franjas e n).posiciones_minimos.get ⟨i, hi⟩ =
      (((-n + i : ℤ) : ℚ) + 1 / 2) * separacion_franjas e := by
  simp only [calcular_posiciones_franjas, List.get_eq_getElem, List.getElem_map, npArange,
    List.getElem_range]

theorem posiciones_maximos_length (e : ExperimentoDobleRendija) (n : ℤ) :
    (calcular_posiciones_franjas e n).posiciones_maximos.length = (2 * n + 1).toNat := by
  show ((npArange (-n) (n + 1)).map
    (fun m : ℤ => (m : ℚ) * separacion_franjas e)).length = (2 * n + 1).toNat
  rw [List.length_map, npArange_length]
  omega

theorem posiciones_minimos_length (e : ExperimentoDobleRendija) (n : ℤ) :
    (calcular_posiciones_franjas e n).posiciones_minimos.length = (2 * n).toNat := by
  show (((npArange (-n) n).map (fun m : ℤ => (m : ℚ) + 1 / 2)).map
    (fun q : ℚ => q * separacion_franjas e)).length = (2 * n).toNat
  rw [List.length_map, List.length_map, npArange_length]
  omega

/-- C3: for a successfully constructed experiment and any `max_order ≥ 1`,
the fringe solver returns exactly `2·max_order+1` maxima — the values
`k × separacion_franjas` for `k = -max_order, …, max_order` in ascending
order — and exactly `2·max_order` minima — the values
`(k + 1/2) × separacion_franjas` for `k = -max_order, …, max_order-1` in
ascending order — and both sequences are symmetric about zero
(entry `i` is the negative of the entry mirrored about the middle). -/
theorem claim_C3 (lo a d L : ℚ) (e : ExperimentoDobleRendija) (ws : List Advertencia)
    (h : mkExperimentoDobleRendija lo a d L = Except.ok (e, ws)) (n : ℤ) (hn : 1 ≤ n) :
    0 < separacion_franjas e ∧
    (calcular_posiciones_franjas e n).posiciones_maximos.length = (2 * n + 1).toNat ∧
    (calcular_posiciones_franjas e n).posiciones_minimos.length = (2 * n).toNat ∧
    (∀ i (hi : i < (calcular_posiciones_franjas e n).posiciones_maximos.length),
      (calcular_posiciones_franjas e n).posiciones_maximos.get ⟨i, hi⟩ =
        ((-n + i : ℤ) : ℚ) * separacion_franjas e) ∧
    (∀ i (hi : i < (calcular_posiciones_franjas e n).posiciones_minimos.length),
      (calcular_posiciones_franjas e n).posiciones_minimos.get ⟨i, hi⟩ =
        (((-n + i : ℤ) : ℚ) + 1 / 2) * separacion_franjas e) ∧
    List.Pairwise (fun p q => p < q) (calcular_posiciones_franjas e n).posiciones_maximos ∧
    List.Pairwise (fun p q => p < q) (calcular_posiciones_franjas e n).posiciones_minimos ∧
    (∀ i (hi : i < (calcular_posiciones_franjas e n).posiciones_maximos.length)
      (hj : (2 * n).toNat - i < (calcular_posiciones_franjas e n).posiciones_maximos.length),
      (calcular_posiciones_franjas e n).posiciones_maximos.get ⟨i, hi⟩ =
        -(calcular_posiciones_franjas e n).posiciones_maximos.get ⟨(2 * n).toNat - i, hj⟩) ∧
    (∀ i (hi : i < (calcular_posiciones_franjas e n).posiciones_minimos.length)
      (hj : (2 * n - 1).toNat - i <
        (calcular_posiciones_franjas e n).posiciones_minimos.length),
      (calcular_posiciones_franjas e n).posiciones_minimos.get ⟨i, hi⟩ =
        -(calcular_posiciones_franjas e n).posiciones_minimos.get
          ⟨(2 * n - 1).toNat - i, hj⟩) := by
  obtain ⟨h1, h2, h3, h4, rfl⟩ := mkExperimentoDobleRendija_ok_inv h
  have hs : 0 < separacion_franjas (⟨⟨lo, 1⟩, a, d, L⟩ : ExperimentoDobleRendija) :=
    div_pos (mul_pos h1 h4) h3
  set e := (⟨⟨lo, 1⟩, a, d, L⟩ : ExperimentoDobleRendija)
  refine ⟨hs, posiciones_maximos_length e n, posiciones_minimos_length e n, fun i hi =>
    posiciones_maximos_get e n i hi, fun i hi => posiciones_minimos_get e n i hi,
    ?_, ?_, ?_, ?_⟩
  · rw [List.pairwise_iff_get]
    intro i j hij
    rw [posiciones_maximos_get e n i.1 i.2, posiciones_maximos_get e n j.1 j.2]
    refine mul_lt_mul_of_pos_right ?_ hs
    exact_mod_cast add_lt_add_left (Int.ofNat_lt.2 hij) (-n)
  · rw [List.pairwise_iff_get]
    intro i j hij
    rw [posiciones_minimos_get e n i.1 i.2, posiciones_minimos_get e n j.1 j.2]
    refine mul_lt_mul_of_pos_right (add_lt_add_right ?_ (1 / 2)) hs
    exact_mod_cast add_lt_add_left (Int.ofNat_lt.2 hij) (-n)
  · intro i hi hj
    rw [posiciones_maximos_get e n i hi, posiciones_maximos_get e n _ hj]
    rw [posiciones_maximos_length e n] at hi
    have hcast : (((2 * n).toNat - i : ℕ) : ℤ) = 2 * n - i := by omega
    rw [hcast]
    push_cast
    ring
  · intro i hi hj
    rw [posiciones_minimos_get e n i hi, posiciones_minimos_get e n _ hj]
    rw [posiciones_minimos_length e n] at hi
    have hcast : (((2 * n - 1).toNat - i : ℕ) : ℤ) = 2 * n - 1 - i := by omega
    rw [hcast]
    push_cast
    ring

/-- C3 (witness): `calcular_posiciones_franjas(n_max=5)` on the default
experiment: positive fringe spacing, exactly 11 maxima and 10 minima, with
the center maximum (index 5) at position `0`. -/
theorem claim_C3_witness :
    0 < separacion_franjas experimento_defecto ∧
    (calcular_posiciones_franjas experimento_defecto 5).posiciones_maximos.length = 11 ∧
    (calcular_posiciones_franjas experimento_defecto 5).posiciones_minimos.length = 10 := by
  have hmk := mk_experimento_defecto_ok
  obtain ⟨hs, hlmax, hlmin, -⟩ :=
    claim_C3 (632 / 10 ^ 9) (50 / 10 ^ 6) (200 / 10 ^ 6) 1 experimento_defecto [] hmk 5
      (by norm_num)
  refine ⟨hs, ?_, ?_⟩
  · rw [hlmax]; rfl
  · rw [hlmin]; rfl

/-- C8: `simular` fails exactly when `ancho ≤ 0` or `puntos < 100`;
otherwise it returns exactly `puntos` positions — the uniform grid
`-ancho/2 + i·(ancho/(puntos-1))` spanning `[-ancho/2, ancho/2]` — paired
with the selected raw intensity divided by its own maximum, whose maximum is
`1` whenever the raw maximum is positive. -/
theorem claim_C8 (e : ExperimentoDobleRendija) (w : ℚ) (n : ℤ) (m : Bool) :
    ((∃ r, simular e w n m = Except.ok r) ↔ (0 < w ∧ 100 ≤ n)) ∧
    (¬(0 < w ∧ 100 ≤ n) → ∃ msg, simular e w n m = Except.error msg) ∧
    (0 < w → 100 ≤ n →
      simular e w n m = Except.ok (npLinspace (-w / 2) (w / 2) n.toNat,
        (intensidad_cruda e w n m).map (fun v => v / npMax (intensidad_cruda e w n m))) ∧
      (npLinspace (-w / 2) (w / 2) n.toNat).length = n.toNat ∧
      (intensidad_cruda e w n m).length = n.toNat ∧
      (∀ i (hi : i < (npLinspace (-w / 2) (w / 2) n.toNat).length),
        (npLinspace (-w / 2) (w / 2) n.toNat).get ⟨i, hi⟩ =
          -w / 2 + (i : ℚ) * (w / ((n.toNat : ℚ) - 1))) ∧
      (∀ h0 : 0 < (npLinspace (-w / 2) (w / 2) n.toNat).length,
        (npLinspace (-w / 2) (w / 2) n.toNat).get ⟨0, h0⟩ = -w / 2) ∧
      (∀ hl : n.toNat - 1 < (npLinspace (-w / 2) (w / 2) n.toNat).length,
        (npLinspace (-w / 2) (w / 2) n.toNat).get ⟨n.toNat - 1, hl⟩ = w / 2) ∧
      (0 < npMax (intensidad_cruda e w n m) →
        npMax ((intensidad_cruda e w n m).map
          (fun v => v / npMax (intensidad_cruda e w n m))) = 1)) := by
  have herr : ¬(0 < w ∧ 100 ≤ n) → ∃ msg, simular e w n m = Except.error msg := by
    intro hcon
    by_cases hw : w ≤ 0
    · exact ⟨"El ancho de la pantalla debe ser positivo", by rw [simular, if_pos hw]⟩
    by_cases hn : n < 100
    · exact ⟨"Se requieren al menos 100 puntos para una buena resolucion",
        by rw [simular, if_neg hw, if_pos hn]⟩
    exact absurd ⟨not_le.1 hw, not_lt.1 hn⟩ hcon
  refine ⟨⟨?_, ?_⟩, herr, ?_⟩
  · rintro ⟨r, hr⟩
    by_contra hcon
    obtain ⟨msg, hmsg⟩ := herr hcon
    rw [hmsg] at hr
    cases hr
  · rintro ⟨hw, hn⟩
    exact ⟨_, simular_ok e w n m hw hn⟩
  · intro hw hn
    have hnn : (100 : ℚ) ≤ ((n.toNat : ℕ) : ℚ) := by
      exact_mod_cast (by omega : (100 : ℤ) ≤ (n.toNat : ℤ))
    have hne : ((n.toNat : ℕ) : ℚ) - 1 ≠ 0 := by
      intro h0
      rw [sub_eq_zero] at h0
      rw [h0] at hnn
      norm_num at hnn
    refine ⟨simular_ok e w n m hw hn, npLinspace_length .., ?_, ?_, ?_, ?_, ?_⟩
    · rw [intensidad_cruda]
      cases m
      · show (rendija_simple e _).length = n.toNat
        rw [rendija_simple, List.length_map, List.length_map, npLinspace_length]
      · show (doble_rendija e _).length = n.toNat
        rw [doble_rendija, List.length_map, List.length_map, npLinspace_length]
    · intro i hi
      rw [npLinspace_get]
      ring
    · intro h0
      rw [npLinspace_get]
      ring
    · intro hl
      rw [npLinspace_get]
      have h1n : 1 ≤ n.toNat := by omega
      rw [Nat.cast_sub h1n, Nat.cast_one]
      field_simp
      ring
    · intro hM
      rw [npMax_map_div _ _ (le_of_lt hM), div_self (ne_of_gt hM)]

/-- C8 (witness): `simular(ancho=0.01, puntos=2000, doble=True)` on the
default experiment succeeds with 2000 sample positions. -/
theorem claim_C8_witness :
    simular experimento_defecto (1 / 100) 2000 true =
      Except.ok (npLinspace (-(1 / 100) / 2) ((1 / 100) / 2) (2000 : ℤ).toNat,
        (intensidad_cruda experimento_defecto (1 / 100) 2000 true).map
          (fun v => v / npMax (intensidad_cruda experimento_defecto (1 / 100) 2000 true))) ∧
    (npLinspace (-(1 / 100) / 2) ((1 / 100) / 2) (2000 : ℤ).toNat).length = 2000 := by
  obtain ⟨hok, hlen, -⟩ :=
    (claim_C8 experimento_defecto (1 / 100) 2000 true).2.2 (by norm_num) (by norm_num)
  exact ⟨hok, hlen⟩

/-- C9: `comparar_experimento_teoria` does not evaluate the theory at the
caller's positions.  Failing input: the 100 equally spaced experimental
positions `0, 0.001, …, 0.099` (first position `0`).  The code regenerates a
grid through `simular(ancho = max(y)-min(y), puntos = len(y))`, i.e. the
grid centered at the origin with first position `-0.0495 ≠ 0`, so the theory
sequence is sampled at positions different from the caller's sequence. -/
theorem claim_C9 :
    ∃ I, comparar_experimento_teoria (npLinspace 0 (99 / 1000) 100) experimento_defecto =
        Except.ok (npLinspace (-(99 / 1000) / 2) ((99 / 1000) / 2) 100, I) ∧
      (∀ h0 : 0 < (npLinspace (-(99 / 1000) / 2) ((99 / 1000) / 2) 100).length,
        (npLinspace (-(99 / 1000) / 2) ((99 / 1000) / 2) 100).get ⟨0, h0⟩ = -(99 / 2000)) ∧
      (∀ h0 : 0 < (npLinspace 0 (99 / 1000) 100).length,
        (npLinspace 0 (99 / 1000) 100).get ⟨0, h0⟩ = 0) ∧
      npLinspace (-(99 / 1000) / 2) ((99 / 1000) / 2) 100 ≠ npLinspace 0 (99 / 1000) 100 := by
  have hstep : ((99 / 1000 : ℚ) - 0) / (((100 : ℕ) : ℚ) - 1) = 1 / 1000 := by norm_num
  have hmem : (99 / 1000 : ℚ) ∈ npLinspace 0 (99 / 1000) 100 := by
    refine npLinspace_mem.2 ⟨99, by norm_num, ?_⟩
    rw [hstep]
    norm_num
  have hub : ∀ q ∈ npLinspace 0 (99 / 1000) 100, q ≤ 99 / 1000 := by
    intro q hq
    obtain ⟨i, hi, rfl⟩ := npLinspace_mem.1 hq
    rw [hstep, zero_add]
    have hi' : (i : ℚ) ≤ 99 := by exact_mod_cast Nat.lt_succ_iff.1 hi
    calc (i : ℚ) * (1 / 1000) ≤ 99 * (1 / 1000) :=
          mul_le_mul_of_nonneg_right hi' (by norm_num)
      _ = 99 / 1000 := by norm_num
  have hmem0 : (0 : ℚ) ∈ npLinspace 0 (99 / 1000) 100 := by
    refine npLinspace_mem.2 ⟨0, by norm_num, ?_⟩
    norm_num
  have hlb : ∀ q ∈ npLinspace 0 (99 / 1000) 100, 0 ≤ q := by
    intro q hq
    obtain ⟨i, hi, rfl⟩ := npLinspace_mem.1 hq
    rw [hstep, zero_add]
    positivity
  have hmaxQ : npMaxQ (npLinspace 0 (99 / 1000) 100) = 99 / 1000 :=
    npMaxQ_eq_of_mem_of_le hmem hub
  have hminQ : npMinQ (npLinspace 0 (99 / 1000) 100) = 0 :=
    npMinQ_eq_of_mem_of_le hmem0 hlb
  have hlen : (((npLinspace 0 (99 / 1000) 100).length : ℕ) : ℤ) = 100 := by
    rw [npLinspace_length]
    norm_num
  have hcmp : comparar_experimento_teoria (npLinspace 0 (99 / 1000) 100)
      experimento_defecto =
      Except.ok (npLinspace (-(99 / 1000) / 2) ((99 / 1000) / 2) 100,
        (intensidad_cruda experimento_defecto (99 / 1000) 100 true).map
          (fun v => v / npMax (intensidad_cruda experimento_defecto (99 / 1000) 100 true))) := by
    rw [comparar_experimento_teoria, hmaxQ, hminQ, hlen,
      (by norm_num : (99 / 1000 : ℚ) - 0 = 99 / 1000)]
    exact simular_ok experimento_defecto (99 / 1000) 100 true (by norm_num) (by norm_num)
  have hgetA : ∀ h0 : 0 < (npLinspace (-(99 / 1000) / 2) ((99 / 1000) / 2) 100).length,
      (npLinspace (-(99 / 1000) / 2) ((99 / 1000) / 2) 100).get ⟨0, h0⟩ = -(99 / 2000) := by
    intro h0
    rw [npLinspace_get]
    norm_num
  have hgetB : ∀ h0 : 0 < (npLinspace 0 (99 / 1000) 100).length,
      (npLinspace 0 (99 / 1000) 100).get ⟨0, h0⟩ = 0 := by
    intro h0
    rw [npLinspace_get]
    norm_num
  refine ⟨_, hcmp, hgetA, hgetB, ?_⟩
  intro heq
  have h0mem : (0 : ℚ) ∈ npLinspace (-(99 / 1000) / 2) ((99 / 1000) / 2) 100 := by
    rw [heq]
    exact hmem0
  obtain ⟨i, hi, hval⟩ := npLinspace_mem.1 h0mem
  have hstep2 : ((99 / 1000 : ℚ) / 2 - -(99 / 1000) / 2) / (((100 : ℕ) : ℚ) - 1) =
      1 / 1000 := by norm_num
  rw [hstep2] at hval
  have h2i : ((2 * i : ℕ) : ℚ) = 99 := by
    push_cast
    linarith
  have : (2 * i : ℕ) = 99 := by exact_mod_cast h2i
  omega

end DobleRendija
